import Mathlib

set_option linter.unusedVariables false

/-!
Shallow embedding of the call-dispatch bridge:

* `src/hpy/devel/src/runtime/ctx_call.c` — the outbound call adapter
  (`ctx_CallTupleDict`, `ctx_Call`, `ctx_CallMethod`, each with the
  modern `PY_VERSION_HEX >= 0x03090000` path and the legacy fallback);
* `src/hpy/universal/src/ctx_meth.c` — the inbound trampoline dispatcher
  (`ctx_CallRealFunctionFromTrampoline`).

A handle (`HPy`) is `Option α` where `α` is the type of native object
references; `none` is the null handle `HPy_NULL`.  In the CPython ABI the
translations `_h2py` / `_py2h` are bijective and map the null handle to the
NULL object pointer, so both sides are modelled by the same `Option α` and
translation is the identity.  The host runtime's primitives
(`PyObject_CallObject`, `PyObject_Call`, `PyObject_Vectorcall`,
`PyObject_GetAttr`, `PyObject_VectorcallMethod`, type checks, tuple
construction and access) are out-of-scope collaborators and are modelled as
fields of a `Host` structure; theorems quantify over all hosts.  Each
embedded function also returns the ordered list of host-primitive events it
performs, so that claims about which primitives run (and how often) are
statable.
-/

namespace HpyCall

/-- A handle: `none` is `HPy_NULL`; `some a` references the native object `a`.
Native object pointers (`PyObject *`) are modelled by the same type, with
`none` for `NULL`, since `_h2py`/`_py2h` are the identity on this model. -/
abbrev HPy (α : Type) : Type := Option α

/-- `HPy_IsNull` from the HPy API. -/
def HPy_IsNull {α : Type} (h : HPy α) : Bool := h.isNone

/-- The host runtime's primitives consumed by `ctx_call.c` and `ctx_meth.c`.
Each field models one external entry point; results of call primitives are
`none` exactly when the host call failed (returned `NULL` with an error set
on the host's error channel, which is the host's own state, not this
layer's). -/
structure Host (α : Type) where
  /-- The context's `h_TypeError` handle (`ctx->h_TypeError`). -/
  h_TypeError : α
  /-- `PyTuple_Check` on a native object. -/
  tupleCheck : α → Bool
  /-- `PyDict_Check` on a native object. -/
  dictCheck : α → Bool
  /-- `PyTuple_GET_SIZE` on a (tuple) native object. -/
  tupleSize : α → Nat
  /-- The elements of a (tuple) native object, i.e. `PyTuple_GET_ITEM` for
  each index below `PyTuple_GET_SIZE`; item pointers are non-null. -/
  tupleItems : α → List α
  /-- `PyObject_CallObject(callable, args)`; `args` may be `NULL`. -/
  callObject : HPy α → HPy α → HPy α
  /-- `PyObject_Call(callable, args, kw)`. -/
  call : HPy α → HPy α → HPy α → HPy α
  /-- `HPyTuple_FromArray(ctx, items, n)`; may return the null handle on
  allocation failure. -/
  tupleFromArray : List (HPy α) → HPy α
  /-- `PyObject_Vectorcall(callable, args, nargs, kwnames)` (modern). -/
  vectorcall : HPy α → List (HPy α) → Nat → HPy α → HPy α
  /-- `_PyObject_Vectorcall` (legacy, `PY_VERSION_HEX < 0x03090000`). -/
  legacyVectorcall : HPy α → List (HPy α) → Nat → HPy α → HPy α
  /-- `PyObject_GetAttr(obj, name)`. -/
  getattr : HPy α → HPy α → HPy α
  /-- `PyObject_VectorcallMethod(name, args, nargs, kwnames)` (modern). -/
  vectorcallMethod : HPy α → List (HPy α) → Nat → HPy α → HPy α

/-- `HPyTuple_Check(ctx, h)`; only called on non-null handles in the source. -/
def HPyTuple_Check {α : Type} (H : Host α) (h : HPy α) : Bool :=
  match h with
  | some a => H.tupleCheck a
  | none => false

/-- `HPyDict_Check(ctx, h)`; only called on non-null handles in the source. -/
def HPyDict_Check {α : Type} (H : Host α) (h : HPy α) : Bool :=
  match h with
  | some a => H.dictCheck a
  | none => false

/-- `PyTuple_GET_SIZE(_h2py(h))`; only applied to non-null tuple handles in
the source (guarded by the asserts in `ctx_Call`/`ctx_CallMethod`). -/
def pyTupleGetSize {α : Type} (H : Host α) (h : HPy α) : Nat :=
  match h with
  | some a => H.tupleSize a
  | none => 0

/-- One observable interaction with the host runtime, in program order. -/
inductive HostEvent (α : Type) where
  | callObject (callable args : HPy α)
  | call (callable args kw : HPy α)
  | tupleFromArray (items : List (HPy α))
  | closeHandle (h : HPy α)
  | vectorcall (callable : HPy α) (buf : List (HPy α)) (nargs : Nat) (kwnames : HPy α)
  | getattr (obj name : HPy α)
  | vectorcallMethod (name : HPy α) (buf : List (HPy α)) (nargs : Nat) (kwnames : HPy α)
  | decref (obj : HPy α)
  deriving DecidableEq, Repr

/-- Output of `ctx_CallTupleDict`: the returned handle, the error this layer
set via `HPyErr_SetString` (the error-type handle and the message), if any,
and the host-primitive events performed. -/
structure CTDOut (α : Type) where
  result : HPy α
  errorSet : Option (α × String)
  events : List (HostEvent α)
  deriving DecidableEq, Repr

/-- `ctx_CallTupleDict` from `src/hpy/devel/src/runtime/ctx_call.c`. -/
def ctx_CallTupleDict {α : Type} (H : Host α) (callable args kw : HPy α) : CTDOut α :=
  if !(HPy_IsNull args) && !(HPyTuple_Check H args) then
    ⟨none, some (H.h_TypeError,
      "HPy_CallTupleDict requires args to be a tuple or null handle"), []⟩
  else if !(HPy_IsNull kw) && !(HPyDict_Check H kw) then
    ⟨none, some (H.h_TypeError,
      "HPy_CallTupleDict requires kw to be a dict or null handle"), []⟩
  else if HPy_IsNull kw then
    ⟨H.callObject callable args, none, [HostEvent.callObject callable args]⟩
  else if !(HPy_IsNull args) then
    ⟨H.call callable args kw, none, [HostEvent.call callable args kw]⟩
  else
    -- args is null, but kw is not: create an empty args tuple for PyObject_Call
    let empty_tuple : HPy α := H.tupleFromArray []
    ⟨H.call callable empty_tuple kw, none,
      [HostEvent.tupleFromArray [], HostEvent.call callable empty_tuple kw,
       HostEvent.closeHandle empty_tuple]⟩

/-- Output of the vector-call adapters: the returned handle, the staged
`alloca` buffer of translated references, and the host events performed. -/
structure CallOut (α : Type) where
  result : HPy α
  staged : List (HPy α)
  events : List (HostEvent α)
  deriving DecidableEq, Repr

/-- `ctx_Call` (modern branch, `PY_VERSION_HEX >= 0x03090000`).  The caller's
argument array `h_args` is modelled as a function from indices to handles;
the staged buffer reads positions `0 .. n_all_args - 1`. -/
def ctx_Call {α : Type} (H : Host α) (h_callable : HPy α) (h_args : Nat → HPy α)
    (nargs : Nat) (h_kwnames : HPy α) : CallOut α :=
  let kwnames : HPy α := if HPy_IsNull h_kwnames then none else h_kwnames
  let n_all_args : Nat :=
    if HPy_IsNull h_kwnames then nargs else nargs + pyTupleGetSize H h_kwnames
  let args : List (HPy α) := (List.range n_all_args).map h_args
  ⟨H.vectorcall h_callable args nargs kwnames, args,
    [HostEvent.vectorcall h_callable args nargs kwnames]⟩

/-- `ctx_Call` (legacy branch, `PY_VERSION_HEX < 0x03090000`), which invokes
`_PyObject_Vectorcall` instead.  (The source's legacy line spells the
callable `callable` although the parameter is `h_callable`; the intended
identifier is used here.) -/
def ctx_Call_legacy {α : Type} (H : Host α) (h_callable : HPy α) (h_args : Nat → HPy α)
    (nargs : Nat) (h_kwnames : HPy α) : CallOut α :=
  let kwnames : HPy α := if HPy_IsNull h_kwnames then none else h_kwnames
  let n_all_args : Nat :=
    if HPy_IsNull h_kwnames then nargs else nargs + pyTupleGetSize H h_kwnames
  let args : List (HPy α) := (List.range n_all_args).map h_args
  ⟨H.legacyVectorcall h_callable args nargs kwnames, args,
    [HostEvent.vectorcall h_callable args nargs kwnames]⟩

/-- `ctx_CallMethod` (modern branch): `PyObject_VectorcallMethod` on the
staged buffer, honouring `kwnames`. -/
def ctx_CallMethod {α : Type} (H : Host α) (h_name : HPy α) (h_args : Nat → HPy α)
    (nargs : Nat) (h_kwnames : HPy α) : CallOut α :=
  let kwnames : HPy α := if HPy_IsNull h_kwnames then none else h_kwnames
  let n_all_args : Nat :=
    if HPy_IsNull h_kwnames then nargs else nargs + pyTupleGetSize H h_kwnames
  let args : List (HPy α) := (List.range n_all_args).map h_args
  ⟨H.vectorcallMethod h_name args nargs kwnames, args,
    [HostEvent.vectorcallMethod h_name args nargs kwnames]⟩

/-- `ctx_CallMethod` (legacy branch): `PyObject_GetAttr` on `args[0]`, then
`_PyObject_Vectorcall(method, args, nargs, NULL)` — note the hard-coded
`NULL` kwnames — then `Py_DECREF(method)`.  `args[0]` is `h_args 0` (the
source requires the staged buffer to be non-empty; slot 0 is the receiver). -/
def ctx_CallMethod_legacy {α : Type} (H : Host α) (h_name : HPy α) (h_args : Nat → HPy α)
    (nargs : Nat) (h_kwnames : HPy α) : CallOut α :=
  let n_all_args : Nat :=
    if HPy_IsNull h_kwnames then nargs else nargs + pyTupleGetSize H h_kwnames
  let args : List (HPy α) := (List.range n_all_args).map h_args
  match H.getattr (h_args 0) h_name with
  | none => ⟨none, args, [HostEvent.getattr (h_args 0) h_name]⟩
  | some method =>
      ⟨H.legacyVectorcall (some method) args nargs none, args,
        [HostEvent.getattr (h_args 0) h_name,
         HostEvent.vectorcall (some method) args nargs none,
         HostEvent.decref (some method)]⟩

/-- Modelled from the spec: the Signature Tag enumeration (`HPyMeth_Signature`,
declared in a header not present under `src/`).  Variants per §3 of the spec:
NO_ARGS, SINGLE_ARG (`HPyMeth_O`), VAR_ARGS, and the reserved, currently
disabled keywords variant (`HPy_METH_KEYWORDS`, present only in commented-out
form in `ctx_meth.c`). -/
inductive HPyMeth_Signature where
  | noargs
  | o
  | varargs
  | keywords
  deriving DecidableEq, Repr

/-- The opaque `void *func` pointer of a dispatch record: each field gives
the native function obtained by casting it to one calling-convention shape
(`HPyMeth_noargs`, `HPyMeth_o`, `HPyMeth_varargs`).  `γ` is the type of the
`HPyContext` passed through to the native function. -/
structure VoidFuncPtr (γ α : Type) where
  asNoargs : γ → HPy α → HPy α
  asO : γ → HPy α → HPy α → HPy α
  asVarargs : γ → HPy α → List (HPy α) → Nat → HPy α

/-- The native-function invocation a trampoline dispatch performed. -/
inductive TrampCall (γ α : Type) where
  | noargs (ctx : γ) (self : HPy α)
  | o (ctx : γ) (self arg : HPy α)
  | varargs (ctx : γ) (self : HPy α) (h_args : List (HPy α)) (nargs : Nat)
  deriving DecidableEq, Repr

/-- Result of the trampoline dispatcher: either a returned native reference
together with the one native-function call that produced it, or the fatal
`abort()` branch, which calls no native function and returns nothing. -/
inductive TrampResult (γ α : Type) where
  | ok (res : HPy α) (call : TrampCall γ α)
  | fatal
  deriving DecidableEq, Repr

/-- `ctx_CallRealFunctionFromTrampoline` from `src/hpy/universal/src/ctx_meth.c`.
Inputs `self`, `args`, `kw` are the host's native objects (`struct _object *`,
`none` for `NULL`); `_py2h`/`_h2py` are the identity in this model.  In the
VARARGS case `args` is the positional tuple, destructured via
`PyTuple_GET_SIZE` / `PyTuple_GET_ITEM` (a null `args` there is a caller
precondition violation, modelled as the empty tuple). -/
def ctx_CallRealFunctionFromTrampoline {γ α : Type} (H : Host α) (ctx : γ)
    (self args kw : HPy α) (func : VoidFuncPtr γ α) (sig : HPyMeth_Signature) :
    TrampResult γ α :=
  match sig with
  | .noargs => .ok (func.asNoargs ctx self) (.noargs ctx self)
  | .o => .ok (func.asO ctx self args) (.o ctx self args)
  | .varargs =>
      let items : List α := match args with | some a => H.tupleItems a | none => []
      let h_args : List (HPy α) := items.map some
      let nargs : Nat := items.length
      .ok (func.asVarargs ctx self h_args nargs) (.varargs ctx self h_args nargs)
  | .keywords => .fatal

/-- Modelled from the spec: the semantic contract relating the host's
version-dependent call primitives, used only for the refinement claim about
the legacy fallbacks.  Per §4.1/§6 of the spec, the legacy vector-call entry
point has semantics identical to the modern one, and the modern
method-vectorcall primitive "performs attribute lookup by name on the
receiver and calls the result, honoring kwnames" (the receiver being slot 0
of the buffer). -/
def HostVectorcallFaithful {α : Type} (H : Host α) : Prop :=
  H.legacyVectorcall = H.vectorcall ∧
  ∀ (name : HPy α) (buf : List (HPy α)) (nargs : Nat) (kwnames : HPy α),
    H.vectorcallMethod name buf nargs kwnames =
      match H.getattr (buf.headD none) name with
      | none => none
      | some m => H.vectorcall (some m) buf nargs kwnames

/-! ### Concrete hosts, for evaluating the theorems at concrete inputs

`natHost` is a host over `α := Nat`: even numbers are tuple-typed, multiples
of 3 are dict-typed, a tuple `a` has `a / 10` elements, and each call
primitive returns a value that encodes its inputs, so distinct invocations
are observably distinct. -/

/-- A concrete `PyObject_Vectorcall` whose result encodes all its inputs. -/
def natVectorcall : HPy Nat → List (HPy Nat) → Nat → HPy Nat → HPy Nat :=
  fun c buf nargs kwnames =>
    some (50 + c.getD 0 + 3 * buf.length + 7 * nargs + kwnames.getD 0)

/-- A concrete `PyObject_GetAttr` whose result encodes its inputs. -/
def natGetattr : HPy Nat → HPy Nat → HPy Nat :=
  fun obj name => some (60 + obj.getD 0 + name.getD 0)

/-- A concrete host over `Nat` whose method-vectorcall primitive satisfies
`HostVectorcallFaithful` by construction. -/
def natHost : Host Nat :=
  ⟨99,
   fun a => a % 2 == 0,
   fun a => a % 3 == 0,
   fun a => a / 10,
   fun a => List.range (a / 10),
   fun c a => some (10 + c.getD 0 + 2 * a.getD 5),
   fun c a k => some (20 + c.getD 0 + 2 * a.getD 5 + 3 * k.getD 0),
   fun items => some (40 + items.length),
   natVectorcall,
   natVectorcall,
   natGetattr,
   fun name buf nargs kwnames =>
     match natGetattr (buf.headD none) name with
     | none => none
     | some m => natVectorcall (some m) buf nargs kwnames⟩

/-- A variant of `natHost` whose attribute lookup always fails. -/
def natHostNoAttr : Host Nat :=
  ⟨99,
   fun a => a % 2 == 0,
   fun a => a % 3 == 0,
   fun a => a / 10,
   fun a => List.range (a / 10),
   fun c a => some (10 + c.getD 0 + 2 * a.getD 5),
   fun c a k => some (20 + c.getD 0 + 2 * a.getD 5 + 3 * k.getD 0),
   fun items => some (40 + items.length),
   natVectorcall,
   natVectorcall,
   fun _ _ => none,
   fun _ _ _ _ => none⟩

/-- A variant of `natHost` whose tuple construction always fails (returns the
null handle), as an allocation failure would. -/
def natHostTupleFail : Host Nat :=
  ⟨99,
   fun a => a % 2 == 0,
   fun a => a % 3 == 0,
   fun a => a / 10,
   fun a => List.range (a / 10),
   fun c a => some (10 + c.getD 0 + 2 * a.getD 5),
   fun c a k => some (20 + c.getD 0 + 2 * a.getD 5 + 3 * k.getD 0),
   fun _ => none,
   natVectorcall,
   natVectorcall,
   natGetattr,
   fun _ _ _ _ => none⟩

/-- A concrete dispatch-record function pointer over `γ := Unit`, `α := Nat`,
with observably distinct behaviour under each cast. -/
def voidFuncNat : VoidFuncPtr Unit Nat :=
  ⟨fun _ self => some (self.getD 0 + 1),
   fun _ self arg => some (self.getD 0 + 10 * arg.getD 0),
   fun _ self h_args nargs => some (self.getD 0 + 100 * nargs + (h_args.headD none).getD 0)⟩

/-! ### Theorems for the claims -/

/-- C1: for every pair (args, kwargs) where args is the null handle or
tuple-typed and kwargs is the null handle or dict-typed, `ctx_CallTupleDict`
returns the same result as directly invoking the host call primitive on the
callable, with an empty tuple substituted for null args exactly when kwargs
is non-null, and with null args passed through unchanged when kwargs is
null. -/
theorem ctx_CallTupleDict_matches_primitive {α : Type} (H : Host α)
    (callable args kw : HPy α)
    (hargs : args = none ∨ HPyTuple_Check H args = true)
    (hkw : kw = none ∨ HPyDict_Check H kw = true) :
    (ctx_CallTupleDict H callable args kw).result =
      match kw with
      | none => H.callObject callable args
      | some _ =>
          H.call callable (if HPy_IsNull args then H.tupleFromArray [] else args) kw := by
  rcases args with _ | a <;> rcases kw with _ | k
  · rfl
  · have h2 : H.dictCheck k = true := by
      simpa [HPyDict_Check] using hkw
    simp [ctx_CallTupleDict, HPy_IsNull, HPyDict_Check, h2]
  · have h1 : H.tupleCheck a = true := by
      simpa [HPyTuple_Check] using hargs
    simp [ctx_CallTupleDict, HPy_IsNull, HPyTuple_Check, h1]
  · have h1 : H.tupleCheck a = true := by
      simpa [HPyTuple_Check] using hargs
    have h2 : H.dictCheck k = true := by
      simpa [HPyDict_Check] using hkw
    simp [ctx_CallTupleDict, HPy_IsNull, HPyTuple_Check, HPyDict_Check, h1, h2]

/-- Witness for C1 at a concrete host and input (args null, kwargs a dict). -/
theorem ctx_CallTupleDict_matches_primitive_witness :
    (ctx_CallTupleDict natHost (some 7) none (some 3)).result =
      match (some 3 : HPy Nat) with
      | none => natHost.callObject (some 7) none
      | some _ =>
          natHost.call (some 7)
            (if HPy_IsNull (none : HPy Nat) then natHost.tupleFromArray [] else none)
            (some 3) :=
  ctx_CallTupleDict_matches_primitive natHost (some 7) none (some 3)
    (Or.inl rfl) (Or.inr (by decide))

/-- C3: whenever args is non-null and not tuple-typed, or kwargs is non-null
and not dict-typed, `ctx_CallTupleDict` sets a TypeError-kind error, returns
the null handle, and performs no host-primitive call at all. -/
theorem ctx_CallTupleDict_type_error {α : Type} (H : Host α)
    (callable args kw : HPy α)
    (hbad : (args ≠ none ∧ HPyTuple_Check H args = false)
          ∨ (kw ≠ none ∧ HPyDict_Check H kw = false)) :
    (ctx_CallTupleDict H callable args kw).result = none
    ∧ (∃ msg, (ctx_CallTupleDict H callable args kw).errorSet = some (H.h_TypeError, msg))
    ∧ (ctx_CallTupleDict H callable args kw).events = [] := by
  rcases hbad with ⟨hne, hchk⟩ | ⟨hne, hchk⟩
  · rcases args with _ | a
    · exact absurd rfl hne
    · simp [ctx_CallTupleDict, HPy_IsNull, hchk]
  · rcases kw with _ | k
    · exact absurd rfl hne
    · unfold ctx_CallTupleDict
      split
      · exact ⟨rfl, ⟨_, rfl⟩, rfl⟩
      · simp only [HPy_IsNull, Option.isNone_some, hchk, Bool.not_false, Bool.and_self]
        exact ⟨rfl, ⟨_, rfl⟩, rfl⟩

/-- Witness for C3 at a concrete host and input (args a non-tuple object). -/
theorem ctx_CallTupleDict_type_error_witness :
    (ctx_CallTupleDict natHost (some 7) (some 5) none).result = none
    ∧ (∃ msg, (ctx_CallTupleDict natHost (some 7) (some 5) none).errorSet
        = some (natHost.h_TypeError, msg))
    ∧ (ctx_CallTupleDict natHost (some 7) (some 5) none).events = [] :=
  ctx_CallTupleDict_type_error natHost (some 7) (some 5) none
    (Or.inl ⟨by decide, by decide⟩)

/-- C2: `ctx_Call` stages exactly `nargs` references when kwnames is null and
exactly `nargs + K` references when kwnames is a tuple of length `K`; the
translation of `h_args[i]` sits at buffer position `i` for every
`i < nargs + K`; and the one host event is the vector-call primitive applied
to that buffer with count `nargs` and the given kwnames. -/
theorem ctx_Call_staging {α : Type} (H : Host α) (h_callable : HPy α)
    (h_args : Nat → HPy α) (nargs : Nat) (h_kwnames : HPy α)
    (hkw : h_kwnames = none ∨ HPyTuple_Check H h_kwnames = true)
    (hov : nargs + pyTupleGetSize H h_kwnames < 2 ^ 64) :
    (ctx_Call H h_callable h_args nargs h_kwnames).staged.length
        = nargs + pyTupleGetSize H h_kwnames
    ∧ (∀ i, i < nargs + pyTupleGetSize H h_kwnames →
        (ctx_Call H h_callable h_args nargs h_kwnames).staged[i]? = some (h_args i))
    ∧ (ctx_Call H h_callable h_args nargs h_kwnames).events
        = [HostEvent.vectorcall h_callable
            (ctx_Call H h_callable h_args nargs h_kwnames).staged nargs h_kwnames] := by
  rcases h_kwnames with _ | k
  · refine ⟨by simp [ctx_Call, HPy_IsNull, pyTupleGetSize], ?_, by simp [ctx_Call, HPy_IsNull]⟩
    intro i hi
    have hi' : i < nargs := by simpa [pyTupleGetSize] using hi
    simp [ctx_Call, HPy_IsNull, List.getElem?_map, List.getElem?_range hi']
  · refine ⟨by simp [ctx_Call, HPy_IsNull, pyTupleGetSize], ?_, by simp [ctx_Call, HPy_IsNull]⟩
    intro i hi
    have hi' : i < nargs + H.tupleSize k := by simpa [pyTupleGetSize] using hi
    simp [ctx_Call, HPy_IsNull, pyTupleGetSize, List.getElem?_map, List.getElem?_range hi']

/-- Witness for C2 at a concrete host, with two positional arguments and a
kwnames tuple of three names. -/
theorem ctx_Call_staging_witness :
    ((ctx_Call natHost (some 9) (fun i => some (i + 1)) 2 (some 30)).staged.length
        = 2 + pyTupleGetSize natHost (some 30)
    ∧ (∀ i, i < 2 + pyTupleGetSize natHost (some 30) →
        (ctx_Call natHost (some 9) (fun i => some (i + 1)) 2 (some 30)).staged[i]?
          = some (some (i + 1)))
    ∧ (ctx_Call natHost (some 9) (fun i => some (i + 1)) 2 (some 30)).events
        = [HostEvent.vectorcall (some 9)
            (ctx_Call natHost (some 9) (fun i => some (i + 1)) 2 (some 30)).staged
            2 (some 30)]) :=
  ctx_Call_staging natHost (some 9) (fun i => some (i + 1)) 2 (some 30)
    (Or.inr (by decide)) (by decide)

/-- C4: when the host supplies, as `args`, the sole element of the positional
argument container (the SINGLE_ARG / `HPyMeth_O` convention), the trampoline
dispatcher calls the native function with (context, receiver handle,
translated sole element of the container) and returns that function's result
translated back. -/
theorem tramp_single_arg {γ α : Type} (H : Host α) (ctx : γ) (self args kw : HPy α)
    (func : VoidFuncPtr γ α) (container : List (HPy α)) (hc : container = [args]) :
    ctx_CallRealFunctionFromTrampoline H ctx self args kw func HPyMeth_Signature.o
      = TrampResult.ok (func.asO ctx self (container.headD none))
          (TrampCall.o ctx self (container.headD none)) := by
  subst hc
  rfl

/-- Witness for C4 at a concrete host, function pointer, and argument. -/
theorem tramp_single_arg_witness :
    ctx_CallRealFunctionFromTrampoline natHost () (some 1) (some 2) none
        voidFuncNat HPyMeth_Signature.o
      = TrampResult.ok (voidFuncNat.asO () (some 1) (([some 2] : List (HPy Nat)).headD none))
          (TrampCall.o () (some 1) (([some 2] : List (HPy Nat)).headD none)) :=
  tramp_single_arg natHost () (some 1) (some 2) none voidFuncNat [some 2] rfl

/-- C8: with tag NO_ARGS the trampoline dispatcher calls the native function
with exactly (context, translated receiver handle), and its result does not
depend on the supplied args/kwargs containers (nor on the host): they are
never read. -/
theorem tramp_noargs_ignores_containers {γ α : Type} (H H2 : Host α) (ctx : γ)
    (self args kw args2 kw2 : HPy α) (func : VoidFuncPtr γ α) :
    ctx_CallRealFunctionFromTrampoline H ctx self args kw func HPyMeth_Signature.noargs
      = TrampResult.ok (func.asNoargs ctx self) (TrampCall.noargs ctx self)
    ∧ ctx_CallRealFunctionFromTrampoline H ctx self args kw func HPyMeth_Signature.noargs
      = ctx_CallRealFunctionFromTrampoline H2 ctx self args2 kw2 func
          HPyMeth_Signature.noargs :=
  ⟨rfl, rfl⟩

/-- C9: any Signature Tag outside the supported set
{NO_ARGS, SINGLE_ARG, VAR_ARGS} — i.e. the reserved, disabled keywords
variant — reaches the fatal abort branch: no native function is invoked and
no value is returned. -/
theorem tramp_unsupported_fatal {γ α : Type} (H : Host α) (ctx : γ)
    (self args kw : HPy α) (func : VoidFuncPtr γ α) (sig : HPyMeth_Signature)
    (hsig : sig ≠ HPyMeth_Signature.noargs ∧ sig ≠ HPyMeth_Signature.o
          ∧ sig ≠ HPyMeth_Signature.varargs) :
    ctx_CallRealFunctionFromTrampoline H ctx self args kw func sig
      = TrampResult.fatal := by
  cases sig
  · exact absurd rfl hsig.1
  · exact absurd rfl hsig.2.1
  · exact absurd rfl hsig.2.2
  · rfl

/-- Witness for C9 at the reserved keywords tag. -/
theorem tramp_unsupported_fatal_witness :
    ctx_CallRealFunctionFromTrampoline natHost () (some 1) (some 2) (some 3)
        voidFuncNat HPyMeth_Signature.keywords
      = TrampResult.fatal :=
  tramp_unsupported_fatal natHost () (some 1) (some 2) (some 3) voidFuncNat
    HPyMeth_Signature.keywords (by decide)

/-- C6: with args null and kwargs a dict, `ctx_CallTupleDict` synthesizes a
fresh empty tuple, invokes the call primitive with it and kwargs, and closes
the synthesized tuple exactly once, after the call event — the same event
trace for every host, hence on the success path and on the failure path
alike (the theorem quantifies over hosts whose `call` fails as well as ones
whose `call` succeeds). -/
theorem ctx_CallTupleDict_scoped_empty_tuple {α : Type} [DecidableEq α] (H : Host α)
    (callable : HPy α) (k t : α) (hk : H.dictCheck k = true)
    (ht : H.tupleFromArray [] = some t) :
    (ctx_CallTupleDict H callable none (some k)).result
        = H.call callable (some t) (some k)
    ∧ (ctx_CallTupleDict H callable none (some k)).events
        = [HostEvent.tupleFromArray [], HostEvent.call callable (some t) (some k),
           HostEvent.closeHandle (some t)]
    ∧ (ctx_CallTupleDict H callable none (some k)).events.count
        (HostEvent.closeHandle (some t)) = 1 := by
  have hev : ctx_CallTupleDict H callable none (some k)
      = ⟨H.call callable (some t) (some k), none,
         [HostEvent.tupleFromArray [], HostEvent.call callable (some t) (some k),
          HostEvent.closeHandle (some t)]⟩ := by
    simp [ctx_CallTupleDict, HPy_IsNull, HPyDict_Check, hk, ht]
  refine ⟨by rw [hev], by rw [hev], ?_⟩
  rw [hev]
  simp [List.count_cons]

/-- Witness for C6 at a concrete host and kwargs dict. -/
theorem ctx_CallTupleDict_scoped_empty_tuple_witness :
    (ctx_CallTupleDict natHost (some 7) none (some 3)).result
        = natHost.call (some 7) (some 40) (some 3)
    ∧ (ctx_CallTupleDict natHost (some 7) none (some 3)).events
        = [HostEvent.tupleFromArray [], HostEvent.call (some 7) (some 40) (some 3),
           HostEvent.closeHandle (some 40)]
    ∧ (ctx_CallTupleDict natHost (some 7) none (some 3)).events.count
        (HostEvent.closeHandle (some 40)) = 1 :=
  ctx_CallTupleDict_scoped_empty_tuple natHost (some 7) 3 40 (by decide) rfl

/-- C10: `ctx_CallTupleDict` never checks whether the empty-tuple synthesis
succeeded: with args null and kwargs a dict, if `HPyTuple_FromArray` returns
the null handle, the call primitive is still invoked with a null positional
container (and the null handle is then closed), with no error set by this
layer and no early return. -/
theorem ctx_CallTupleDict_unchecked_synthesis {α : Type} (H : Host α)
    (callable : HPy α) (k : α) (hk : H.dictCheck k = true)
    (hfail : H.tupleFromArray [] = none) :
    (ctx_CallTupleDict H callable none (some k)).result
        = H.call callable none (some k)
    ∧ (ctx_CallTupleDict H callable none (some k)).errorSet = none
    ∧ (ctx_CallTupleDict H callable none (some k)).events
        = [HostEvent.tupleFromArray [], HostEvent.call callable none (some k),
           HostEvent.closeHandle none] := by
  simp [ctx_CallTupleDict, HPy_IsNull, HPyDict_Check, hk, hfail]

/-- Witness for C10 at a concrete host whose tuple construction fails. -/
theorem ctx_CallTupleDict_unchecked_synthesis_witness :
    (ctx_CallTupleDict natHostTupleFail (some 7) none (some 3)).result
        = natHostTupleFail.call (some 7) none (some 3)
    ∧ (ctx_CallTupleDict natHostTupleFail (some 7) none (some 3)).errorSet = none
    ∧ (ctx_CallTupleDict natHostTupleFail (some 7) none (some 3)).events
        = [HostEvent.tupleFromArray [], HostEvent.call (some 7) none (some 3),
           HostEvent.closeHandle none] :=
  ctx_CallTupleDict_unchecked_synthesis natHostTupleFail (some 7) 3 (by decide) rfl

/-- C7: in the legacy fallback of `ctx_CallMethod`, the attribute is looked
up on the slot-0 receiver; if the lookup fails, the null handle is returned
with no call attempted; otherwise the resolved method is called with the
full staged buffer and a null kwnames (kwnames ignored), and the owned
reference to the method is released after the call. -/
theorem ctx_CallMethod_legacy_fallback {α : Type} (H : Host α) (h_name : HPy α)
    (h_args : Nat → HPy α) (nargs : Nat) (h_kwnames : HPy α) :
    (H.getattr (h_args 0) h_name = none →
        (ctx_CallMethod_legacy H h_name h_args nargs h_kwnames).result = none
      ∧ (ctx_CallMethod_legacy H h_name h_args nargs h_kwnames).events
          = [HostEvent.getattr (h_args 0) h_name])
    ∧ ∀ m, H.getattr (h_args 0) h_name = some m →
        (ctx_CallMethod_legacy H h_name h_args nargs h_kwnames).result
          = H.legacyVectorcall (some m)
              (ctx_CallMethod_legacy H h_name h_args nargs h_kwnames).staged nargs none
      ∧ (ctx_CallMethod_legacy H h_name h_args nargs h_kwnames).events
          = [HostEvent.getattr (h_args 0) h_name,
             HostEvent.vectorcall (some m)
               (ctx_CallMethod_legacy H h_name h_args nargs h_kwnames).staged nargs none,
             HostEvent.decref (some m)] := by
  constructor
  · intro hfail
    simp [ctx_CallMethod_legacy, hfail]
  · intro m hm
    simp [ctx_CallMethod_legacy, hm]

/-- Witness for C7: the lookup-failure case at `natHostNoAttr` and the
successful-lookup case at `natHost`, both at concrete inputs. -/
theorem ctx_CallMethod_legacy_fallback_witness :
    ((ctx_CallMethod_legacy natHostNoAttr (some 1) (fun i => some (i + 2)) 1 none).result
        = none
    ∧ (ctx_CallMethod_legacy natHostNoAttr (some 1) (fun i => some (i + 2)) 1 none).events
        = [HostEvent.getattr (some 2) (some 1)])
    ∧ ((ctx_CallMethod_legacy natHost (some 1) (fun i => some (i + 2)) 1 none).result
        = natHost.legacyVectorcall (some 63)
            (ctx_CallMethod_legacy natHost (some 1) (fun i => some (i + 2)) 1 none).staged
            1 none
    ∧ (ctx_CallMethod_legacy natHost (some 1) (fun i => some (i + 2)) 1 none).events
        = [HostEvent.getattr (some 2) (some 1),
           HostEvent.vectorcall (some 63)
             (ctx_CallMethod_legacy natHost (some 1) (fun i => some (i + 2)) 1 none).staged
             1 none,
           HostEvent.decref (some 63)]) :=
  ⟨(ctx_CallMethod_legacy_fallback natHostNoAttr (some 1) (fun i => some (i + 2)) 1
      none).1 rfl,
   (ctx_CallMethod_legacy_fallback natHost (some 1) (fun i => some (i + 2)) 1
      none).2 63 rfl⟩

/-- Head of a staged buffer `(List.range n).map f` is `f 0` when `n > 0`. -/
theorem headD_range_map {α : Type} (f : Nat → α) (n : Nat) (d : α) (hn : 0 < n) :
    ((List.range n).map f).headD d = f 0 := by
  cases n with
  | zero => exact absurd hn (by decide)
  | succ m => rw [List.range_succ_eq_map]; rfl

/-- C5 counterexample: a host satisfying the spec's contract between the
modern and legacy primitives (`HostVectorcallFaithful`) on which the legacy
path of `ctx_CallMethod` and the modern path return different results for
the same inputs, because the legacy fallback hard-codes a null kwnames.
Input: method name `some 1`, argument array `i ↦ some (i + 2)`, `nargs = 1`,
kwnames tuple `some 30` (three keyword names). -/
theorem ctx_CallMethod_legacy_modern_differ :
    HostVectorcallFaithful natHost
    ∧ (ctx_CallMethod_legacy natHost (some 1) (fun i => some (i + 2)) 1 (some 30)).result
      ≠ (ctx_CallMethod natHost (some 1) (fun i => some (i + 2)) 1 (some 30)).result :=
  ⟨⟨rfl, fun _ _ _ _ => rfl⟩, by decide⟩

/-- C5 amended: under the spec's contract between the version-dependent host
primitives, the legacy branch of `ctx_Call` returns the same result as the
modern branch on all inputs; the legacy branch of `ctx_CallMethod` returns
the same result as the modern branch when kwnames is null (and the staged
buffer is non-empty, so slot 0 holds the receiver) — but not in general when
keyword arguments are present, since the legacy fallback drops kwnames. -/
theorem ctx_legacy_refines_modern {α : Type} (H : Host α)
    (hF : HostVectorcallFaithful H) (h_callable h_name : HPy α)
    (h_args : Nat → HPy α) (nargs : Nat) (h_kwnames : HPy α) (hn : 0 < nargs) :
    (ctx_Call_legacy H h_callable h_args nargs h_kwnames).result
      = (ctx_Call H h_callable h_args nargs h_kwnames).result
    ∧ (ctx_CallMethod_legacy H h_name h_args nargs none).result
      = (ctx_CallMethod H h_name h_args nargs none).result := by
  constructor
  · simp [ctx_Call_legacy, ctx_Call, hF.1]
  · have hhead : ((List.range nargs).map h_args).headD none = h_args 0 :=
      headD_range_map h_args nargs none hn
    simp only [ctx_CallMethod_legacy, ctx_CallMethod, HPy_IsNull, Option.isNone_none,
      if_pos, hF.2, hhead]
    cases hget : H.getattr (h_args 0) h_name with
    | none => rfl
    | some m => simp [hF.1]

/-- Witness for the amended C5 at a concrete faithful host with one
positional argument and null kwnames. -/
theorem ctx_legacy_refines_modern_witness :
    (ctx_Call_legacy natHost (some 9) (fun i => some (i + 2)) 1 (some 30)).result
      = (ctx_Call natHost (some 9) (fun i => some (i + 2)) 1 (some 30)).result
    ∧ (ctx_CallMethod_legacy natHost (some 1) (fun i => some (i + 2)) 1 none).result
      = (ctx_CallMethod natHost (some 1) (fun i => some (i + 2)) 1 none).result :=
  ctx_legacy_refines_modern natHost ⟨rfl, fun _ _ _ _ => rfl⟩ (some 9) (some 1)
    (fun i => some (i + 2)) 1 (some 30) (by decide)

end HpyCall
